import Mathlib

/-!
Verification of the faiss-node-native facade (src/cpp/faiss_index.{h,cpp} and
src/cpp/napi_bindings.cpp) against its natural-language specification.

The development shallowly embeds the two layers of the program:

* `FaissIndexWrapper` mirrors the C++ class of the same name in
  `faiss_index.cpp`: a `dims` field, a `disposed` flag and an owned backend
  index (`index : Option Backend`, `none` once `index_.reset()` has run).
  Every method mirrors the source's order of checks.  Where a method is
  instrumented for the lock/backend-access claims it additionally returns a
  list of events (`Ev`): the mutex acquire/release performed by its
  `lock_guard`, and a `backendOp` event at the point the FAISS index is
  actually invoked.

* The `FaissIndexWrapperJS` namespace mirrors the N-API binding layer in
  `napi_bindings.cpp`: argument validation (`ValidateNotDisposed`, length and
  range checks), the async-worker bodies (`Execute`), and the completion
  marshalling (`OnOK`), in particular the `static_cast<int32_t>` truncation of
  64-bit labels modelled by `toInt32`.

The FAISS library itself is an external collaborator of the repository (its
sources are not part of the program); backend behaviour is modelled from the
specification's Capability Backend interface, and each such definition is
marked "Modelled from the spec".  C++ machine integers are modelled as
`Int`/`Nat` with explicit reduction modulo 2^32 where the source performs a
narrowing cast; `float` data is modelled over `ℚ` (no claim here depends on
rounding).  Null pointers are modelled with `Option` where the source checks
for them.
-/

namespace FaissNode

/-- Error taxonomy of the facade.  `invalidArgument` models
`std::invalid_argument` and the binding's `TypeError`/`RangeError` throws,
`disposed` models the "Index has been disposed" / "Cannot merge from disposed
index" errors, `emptyIndex` the "Cannot search empty index" `runtime_error`,
and `backendError` the wrapped FAISS failures. -/
inductive FaissErr where
  | invalidArgument (msg : String)
  | disposed
  | emptyIndex
  | backendError (msg : String)
deriving DecidableEq, Repr

/-- Observable events of an operation: mutex acquisition and release by a
`std::lock_guard`, and an invocation of a method of the owned FAISS index. -/
inductive Ev where
  | lockAcq
  | lockRel
  | backendOp
deriving DecidableEq, Repr

/-- Modelled from the spec: the external Capability Backend (spec section 6), a
FAISS index object.  It carries the dimension `d`, the metric (`1` = L2, `0` =
inner product), the `index_factory` descriptor string it was built from, its
trained flag, the IVF probe-width parameter, and the stored vectors (the label
of a vector is its position, so `ntotal` is the length of `vecs`). -/
structure Backend where
  d : Int
  metric : Int
  desc : String
  trained : Bool
  nprobe : Int
  vecs : List (List ℚ)
deriving DecidableEq, Repr

/-- The backend's vector count (`faiss::Index::ntotal`). -/
def Backend.ntotal (b : Backend) : Nat := b.vecs.length

/-- Split a flat row-major buffer into `n` rows of `d` entries each, mirroring
the layout `[v1[0..d-1], v2[0..d-1], ...]` the source documents. -/
def chunkRows (d : Nat) : Nat → List ℚ → List (List ℚ)
  | 0, _ => []
  | n + 1, xs => xs.take d :: chunkRows d n (xs.drop d)

/-- Modelled from the spec: `Backend.add` stores `n` further vectors (spec
section 6, `add(vectors, count)`); `ntotal` grows by exactly `n`. -/
def Backend.add (b : Backend) (flat : List ℚ) (n : Nat) : Backend :=
  { b with vecs := b.vecs ++ chunkRows b.d.toNat n flat }

/-- Modelled from the spec: training marks the backend trained (spec section 6,
`train(vectors, count)`); the stored vectors are unaffected. -/
def Backend.train (b : Backend) (_flat : List ℚ) (_n : Nat) : Backend :=
  { b with trained := true }

/-- Whether a factory descriptor denotes an IVF variant (the condition under
which the source's `dynamic_cast<faiss::IndexIVF*>` succeeds), decided
structurally on the descriptor's characters. -/
def isIVFDesc (s : String) : Bool :=
  match s.data with
  | 'I' :: 'V' :: 'F' :: _ => true
  | _ => false

/-- Squared L2 distance between two vectors. -/
def sqDist (q v : List ℚ) : ℚ :=
  (List.zipWith (fun a bv => (a - bv) * (a - bv)) q v).foldr (· + ·) 0

/-- Inner product of two vectors. -/
def innerProd (q v : List ℚ) : ℚ :=
  (List.zipWith (· * ·) q v).foldr (· + ·) 0

/-- Search score under a metric: ascending squared L2 distance for metric 1,
descending inner product (modelled as ascending negated product) for metric 0. -/
def scoreOf (metric : Int) (q v : List ℚ) : ℚ :=
  if metric = 0 then -(innerProd q v) else sqDist q v

/-- Insertion into a list sorted by ascending first component. -/
def insertByScore (x : ℚ × Int) : List (ℚ × Int) → List (ℚ × Int)
  | [] => [x]
  | y :: ys => if x.1 < y.1 then x :: y :: ys else y :: insertByScore x ys

/-- Insertion sort by ascending first component. -/
def sortByScore : List (ℚ × Int) → List (ℚ × Int)
  | [] => []
  | x :: xs => insertByScore x (sortByScore xs)

/-- Modelled from the spec: exact k-nearest-neighbour search of the backend
(spec section 6, `search`): score every stored vector against the query, order
by the metric, and return the best `k` (distance, label) pairs. -/
def Backend.searchK (b : Backend) (q : List ℚ) (k : Nat) : List ℚ × List Int :=
  let scored := b.vecs.enum.map (fun p => (scoreOf b.metric q p.2, (p.1 : Int)))
  let top := (sortByScore scored).take k
  (top.map (fun p => if b.metric = 0 then -p.1 else p.1), top.map (fun p => p.2))

/-- Modelled from the spec: range search of the backend (spec section 6,
`rangeSearch`): all stored vectors whose distance to the query is within the
radius, as (distance, label) pairs. -/
def Backend.rangeHits (b : Backend) (q : List ℚ) (radius : ℚ) : List (ℚ × Int) :=
  b.vecs.enum.filterMap (fun p =>
    let s := sqDist q p.2
    if s ≤ radius then some (s, (p.1 : Int)) else none)

/-- Modelled from the spec: backend merge (spec section 4.3 and the source's
own comment "FAISS merge_from copies all vectors from other index"): the
target receives a copy of every vector of the source and the source is left
unmodified. -/
def Backend.mergeFrom (target source : Backend) : Backend × Backend :=
  ({ target with vecs := target.vecs ++ source.vecs }, source)

/-- Modelled from the spec: `reset` clears all stored vectors but keeps the
index structure, dimension, and trained state (spec section 4.1). -/
def Backend.reset (b : Backend) : Backend :=
  { b with vecs := [] }

/-- Modelled from the spec: the serialized form produced by the backend's own
codec is an opaque byte sequence; it is modelled here by its decoded content,
which makes `serializeIndex`/`deserializeIndex` the inverse pair the
specification requires of the external codec (spec section 6). -/
structure SerializedBuffer where
  payload : Backend
deriving DecidableEq, Repr

/-- Modelled from the spec: `faiss::write_index` into a memory buffer. -/
def serializeIndex (b : Backend) : SerializedBuffer := ⟨b⟩

/-- Modelled from the spec: `faiss::read_index` from a memory buffer; every
value of the opaque buffer type decodes to its payload. -/
def deserializeIndex (buf : SerializedBuffer) : Backend := buf.payload

/-- Two's-complement narrowing of an integer to 32 bits, the effect of
`static_cast<int32_t>` / `static_cast<int>` on a 64-bit value: reduction
modulo 2^32 into the signed range [-2^31, 2^31). -/
def toInt32 (x : Int) : Int := (x + 2147483648) % 4294967296 - 2147483648

/-- The `static_cast<int>(ntotal)` conversion applied to a `size_t` value. -/
def cppIntOfSizeT (n : Nat) : Int := toInt32 (n : Int)

/-- The label marshalling the binding's `OnOK` completions perform: every
64-bit backend label is narrowed to 32 bits for the `Int32Array` handed to the
caller (`static_cast<int32_t>(labels_[i])`). -/
def emitLabels (ls : List Int) : List Int := ls.map toInt32

/-- The `lims` marshalling of `RangeSearchWorker::OnOK`: each `size_t` offset
is narrowed to `uint32_t` for the `Uint32Array` handed to the caller. -/
def emitLims (ls : List Nat) : List Nat := ls.map (fun n => n % 4294967296)

/-- State of the C++ `FaissIndexWrapper` class (faiss_index.h): the stored
dimension `dims_`, the `disposed_` flag, and the owned index pointer
(`index : Option Backend`, `none` after `index_.reset()` in `Dispose`).  The
`mutex_` member has no data content; the lock/unlock actions of each method's
`lock_guard` appear in the event traces of the instrumented methods. -/
structure FaissIndexWrapper where
  dims : Int
  disposed : Bool
  index : Option Backend
deriving DecidableEq, Repr

namespace FaissIndexWrapper

/-- `FaissIndexWrapper::IsDisposed` (the lock it takes is omitted from the
claims' traces only where no claim mentions it; the binding-level operations
account for it explicitly). -/
def IsDisposed (w : FaissIndexWrapper) : Bool := w.disposed

/-- `FaissIndexWrapper::GetTotalVectors`: 0 once disposed, otherwise the
backend's `ntotal`. -/
def GetTotalVectors (w : FaissIndexWrapper) : Nat :=
  if w.disposed then 0
  else match w.index with
    | some b => b.ntotal
    | none => 0

/-- `FaissIndexWrapper::GetDimensions` (no lock, plain field read). -/
def GetDimensions (w : FaissIndexWrapper) : Int := w.dims

/-- `FaissIndexWrapper::IsTrained`: false once disposed, otherwise the
backend's `is_trained`. -/
def IsTrained (w : FaissIndexWrapper) : Bool :=
  if w.disposed then false
  else match w.index with
    | some b => b.trained
    | none => false

/-- `FaissIndexWrapper::Add`: under the lock, check disposed, then the null
pointer, then the `n == 0` early return, then invoke `index_->add`.  The
`index = none` fallthrough is unreachable for well-formed (live) states and is
mapped to the disposed error. -/
def Add (w : FaissIndexWrapper) (vectors : Option (List ℚ)) (n : Nat) :
    Except FaissErr FaissIndexWrapper × List Ev :=
  if w.disposed then (.error .disposed, [Ev.lockAcq, Ev.lockRel])
  else match vectors with
    | none => (.error (.invalidArgument "Vectors pointer cannot be null"),
               [Ev.lockAcq, Ev.lockRel])
    | some flat =>
      if n = 0 then (.ok w, [Ev.lockAcq, Ev.lockRel])
      else match w.index with
        | some b => (.ok { w with index := some (b.add flat n) },
                     [Ev.lockAcq, Ev.backendOp, Ev.lockRel])
        | none => (.error .disposed, [Ev.lockAcq, Ev.lockRel])

/-- `FaissIndexWrapper::Train`: under the lock, check disposed, the null
pointer, then reject `n == 0` with `std::invalid_argument`, then invoke
`index_->train`. -/
def Train (w : FaissIndexWrapper) (vectors : Option (List ℚ)) (n : Nat) :
    Except FaissErr FaissIndexWrapper × List Ev :=
  if w.disposed then (.error .disposed, [Ev.lockAcq, Ev.lockRel])
  else match vectors with
    | none => (.error (.invalidArgument "Vectors pointer cannot be null"),
               [Ev.lockAcq, Ev.lockRel])
    | some flat =>
      if n = 0 then (.error (.invalidArgument "Number of training vectors must be positive"),
                     [Ev.lockAcq, Ev.lockRel])
      else match w.index with
        | some b => (.ok { w with index := some (b.train flat n) },
                     [Ev.lockAcq, Ev.backendOp, Ev.lockRel])
        | none => (.error .disposed, [Ev.lockAcq, Ev.lockRel])

/-- `FaissIndexWrapper::Search`: under the lock, check disposed, the null
query (the output-array null checks are not representable here because the
outputs are modelled as return values; the binding always passes freshly
resized vectors), reject `k <= 0`, fail `emptyIndex` on `ntotal == 0`, clamp
`k` through the `static_cast<int>(ntotal)` conversion, and delegate to the
backend.  When `ntotal` lies in [2^31, 2^32) that cast makes the clamped
count negative; `index_->search` is then invoked with a non-positive `k` and
throws (FAISS rejects `k <= 0`), modelled as a backend error after a
`backendOp` event. -/
def Search (w : FaissIndexWrapper) (query : Option (List ℚ)) (k : Int) :
    Except FaissErr (List ℚ × List Int) × List Ev :=
  if w.disposed then (.error .disposed, [Ev.lockAcq, Ev.lockRel])
  else match query with
    | none => (.error (.invalidArgument "Query pointer cannot be null"),
               [Ev.lockAcq, Ev.lockRel])
    | some q =>
      if k ≤ 0 then (.error (.invalidArgument "k must be positive"),
                     [Ev.lockAcq, Ev.lockRel])
      else match w.index with
        | some b =>
          if b.ntotal = 0 then (.error .emptyIndex, [Ev.lockAcq, Ev.lockRel])
          else
            let ak := if k > cppIntOfSizeT b.ntotal then cppIntOfSizeT b.ntotal else k
            if ak ≤ 0 then
              (.error (.backendError "k must be positive"),
               [Ev.lockAcq, Ev.backendOp, Ev.lockRel])
            else (.ok (b.searchK q ak.toNat), [Ev.lockAcq, Ev.backendOp, Ev.lockRel])
        | none => (.error .disposed, [Ev.lockAcq, Ev.lockRel])

/-- `FaissIndexWrapper::SearchBatch`: same discipline as `Search` with a query
count; `nq == 0` is rejected with `std::invalid_argument`, and a clamped count
that wrapped negative makes the backend call throw, as in `Search`. -/
def SearchBatch (w : FaissIndexWrapper) (queries : Option (List ℚ)) (nq : Nat) (k : Int) :
    Except FaissErr (List ℚ × List Int) :=
  if w.disposed then .error .disposed
  else match queries with
    | none => .error (.invalidArgument "Queries pointer cannot be null")
    | some flat =>
      if nq = 0 then .error (.invalidArgument "Number of queries must be positive")
      else if k ≤ 0 then .error (.invalidArgument "k must be positive")
      else match w.index with
        | some b =>
          if b.ntotal = 0 then .error .emptyIndex
          else
            let ak := if k > cppIntOfSizeT b.ntotal then cppIntOfSizeT b.ntotal else k
            if ak ≤ 0 then .error (.backendError "k must be positive")
            else
              let rows := chunkRows w.dims.toNat nq flat
              .ok (rows.foldr (fun r acc =>
                let p := b.searchK r ak.toNat
                (p.1 ++ acc.1, p.2 ++ acc.2)) ([], []))
        | none => .error .disposed

/-- `FaissIndexWrapper::RangeSearch`: under the lock, check disposed, the null
query, reject a negative radius, fail `emptyIndex` on `ntotal == 0`, then
collect the backend's hits with limits `[0, total]`. -/
def RangeSearch (w : FaissIndexWrapper) (query : Option (List ℚ)) (radius : ℚ) :
    Except FaissErr (List ℚ × List Int × List Nat) :=
  if w.disposed then .error .disposed
  else match query with
    | none => .error (.invalidArgument "Query pointer cannot be null")
    | some q =>
      if radius < 0 then .error (.invalidArgument "Radius must be non-negative")
      else match w.index with
        | some b =>
          if b.ntotal = 0 then .error .emptyIndex
          else
            let hits := b.rangeHits q radius
            .ok (hits.map (fun p => p.1), hits.map (fun p => p.2), [0, hits.length])
        | none => .error .disposed

/-- `FaissIndexWrapper::SetNprobe`: under the lock, check disposed; the
`dynamic_cast<faiss::IndexIVF*>` succeeds exactly for the IVF variants
(modelled by the factory descriptor), in which case `nprobe` is set; on other
variants the call is silently a no-op. -/
def SetNprobe (w : FaissIndexWrapper) (np : Int) : Except FaissErr FaissIndexWrapper :=
  if w.disposed then .error .disposed
  else match w.index with
    | some b =>
      .ok { w with index := some (if isIVFDesc b.desc then { b with nprobe := np } else b) }
    | none => .ok w

/-- `FaissIndexWrapper::Dispose`: idempotent; sets `disposed_` and releases
the index. -/
def Dispose (w : FaissIndexWrapper) : FaissIndexWrapper :=
  if w.disposed then w else ⟨w.dims, true, none⟩

/-- `FaissIndexWrapper::Save`: check disposed, reject the empty filename, then
serialize through the backend codec (the bytes written to the named file). -/
def Save (w : FaissIndexWrapper) (filename : String) : Except FaissErr SerializedBuffer :=
  if w.disposed then .error .disposed
  else if filename = "" then .error (.invalidArgument "Filename cannot be empty")
  else match w.index with
    | some b => .ok (serializeIndex b)
    | none => .error .disposed

/-- `FaissIndexWrapper::ToBuffer`: check disposed, then serialize the index
into a memory buffer via the backend codec. -/
def ToBuffer (w : FaissIndexWrapper) : Except FaissErr SerializedBuffer :=
  if w.disposed then .error .disposed
  else match w.index with
    | some b => .ok (serializeIndex b)
    | none => .error .disposed

/-- `FaissIndexWrapper::FromBuffer`: decode the buffer and build a fresh live
wrapper whose `dims_` is taken from the loaded index (`loaded_index->d`).  The
source's null/zero-length guard is not representable for the opaque buffer
model, in which every buffer value decodes. -/
def FromBuffer (buf : SerializedBuffer) : Except FaissErr FaissIndexWrapper :=
  let b := deserializeIndex buf
  .ok ⟨b.d, false, some b⟩

/-- `FaissIndexWrapper::MergeFrom`: locks `this->mutex_` first and then
`other.mutex_` (see `mergeFromLockOrder`), checks both disposed flags, rejects
a dimension mismatch with `std::invalid_argument`, then performs the backend
merge. -/
def MergeFrom (target source : FaissIndexWrapper) :
    Except FaissErr (FaissIndexWrapper × FaissIndexWrapper) :=
  if target.disposed then .error .disposed
  else if source.disposed then .error .disposed
  else if source.dims ≠ target.dims then
    .error (.invalidArgument "Merging index must have the same dimensions")
  else match target.index, source.index with
    | some bt, some bs =>
      let p := Backend.mergeFrom bt bs
      .ok ({ target with index := some p.1 }, { source with index := some p.2 })
    | _, _ => .error .disposed

/-- `FaissIndexWrapper::Reset`: check disposed, then clear the backend's
stored vectors. -/
def Reset (w : FaissIndexWrapper) : Except FaissErr FaissIndexWrapper :=
  if w.disposed then .error .disposed
  else match w.index with
    | some b => .ok { w with index := some b.reset }
    | none => .error .disposed

end FaissIndexWrapper

/-- The mutex-acquisition order of `FaissIndexWrapper::MergeFrom` over the two
participating handles, by identity: `lock1(mutex_)` takes the target's lock
and `lock2(other.mutex_)` then takes the source's, irrespective of which
identity is smaller. -/
def mergeFromLockOrder (target source : Nat) : List Nat := [target, source]

/-- The stats object `FaissIndexWrapperJS::GetStats` builds for the caller. -/
structure Stats where
  ntotal : Nat
  dims : Int
  isTrained : Bool
  type : String
deriving DecidableEq, Repr

namespace FaissIndexWrapperJS

/-- `FaissIndexWrapperJS::Add` composed with `AddWorker::Execute` (the
worker's eventual effect, in program order).  `ValidateNotDisposed` calls
`IsDisposed`, whose `lock_guard` acquires and releases the wrapper's mutex
(the leading two events); only then is the buffer length validated against
`dims_`.  The worker re-checks `IsDisposed` (two further lock events) before
invoking the C++ wrapper's `Add`. -/
def Add (w : FaissIndexWrapper) (arr : List ℚ) :
    Except FaissErr FaissIndexWrapper × List Ev :=
  let pre := [Ev.lockAcq, Ev.lockRel]
  if w.disposed then (.error .disposed, pre)
  else if arr.length % w.dims.toNat ≠ 0 then
    (.error (.invalidArgument "Vector length must be a multiple of dimensions"), pre)
  else
    let n := arr.length / w.dims.toNat
    let pre2 := pre ++ [Ev.lockAcq, Ev.lockRel]
    if w.disposed then (.error .disposed, pre2)
    else
      let r := FaissIndexWrapper.Add w (some arr) n
      (r.1, pre2 ++ r.2)

/-- `FaissIndexWrapperJS::Train` composed with `TrainWorker::Execute`; same
structure as `Add`. -/
def Train (w : FaissIndexWrapper) (arr : List ℚ) :
    Except FaissErr FaissIndexWrapper × List Ev :=
  let pre := [Ev.lockAcq, Ev.lockRel]
  if w.disposed then (.error .disposed, pre)
  else if arr.length % w.dims.toNat ≠ 0 then
    (.error (.invalidArgument "Vector length must be a multiple of dimensions"), pre)
  else
    let n := arr.length / w.dims.toNat
    let pre2 := pre ++ [Ev.lockAcq, Ev.lockRel]
    if w.disposed then (.error .disposed, pre2)
    else
      let r := FaissIndexWrapper.Train w (some arr) n
      (r.1, pre2 ++ r.2)

/-- `FaissIndexWrapperJS::Search` composed with `SearchWorker::Execute` and
`SearchWorker::OnOK`.  After the disposed precheck (which locks), the query
length must equal `dims_` and `k` must be positive.  The worker re-checks
disposed, reads `ntotal` under the lock, fails `emptyIndex` when it is zero,
clamps `k` through `static_cast<int>(ntotal)`, resizes the output vectors to
the clamped count (a negative count makes the `resize` throw, surfaced as a
backend error), runs the wrapper's `Search`, and `OnOK` finally narrows every
64-bit label to 32 bits for the caller's `Int32Array`. -/
def Search (w : FaissIndexWrapper) (q : List ℚ) (k : Int) :
    Except FaissErr (List ℚ × List Int) × List Ev :=
  let pre := [Ev.lockAcq, Ev.lockRel]
  if w.disposed then (.error .disposed, pre)
  else if (q.length : Int) ≠ w.dims then
    (.error (.invalidArgument "Query vector length must match index dimensions"), pre)
  else if k ≤ 0 then (.error (.invalidArgument "k must be positive"), pre)
  else
    let pre2 := pre ++ [Ev.lockAcq, Ev.lockRel]
    if w.disposed then (.error .disposed, pre2)
    else
      let pre3 := pre2 ++ [Ev.lockAcq, Ev.lockRel]
      let t := FaissIndexWrapper.GetTotalVectors w
      if t = 0 then (.error .emptyIndex, pre3)
      else
        let ak := if k > cppIntOfSizeT t then cppIntOfSizeT t else k
        if ak < 0 then (.error (.backendError "vector resize failed"), pre3)
        else
          let r := FaissIndexWrapper.Search w (some q) ak
          match r.1 with
          | .ok p => (.ok (p.1, emitLabels p.2), pre3 ++ r.2)
          | .error e => (.error e, pre3 ++ r.2)

/-- `FaissIndexWrapperJS::SearchBatch` composed with
`SearchBatchWorker::Execute`/`OnOK`: empty queries rejected, length must be a
multiple of `dims_`, `k` positive; the worker applies the same disposed /
empty-index / clamping discipline as `Search`, then narrows the labels. -/
def SearchBatch (w : FaissIndexWrapper) (arr : List ℚ) (k : Int) :
    Except FaissErr (List ℚ × List Int) :=
  if w.disposed then .error .disposed
  else if arr.length = 0 then .error (.invalidArgument "Queries array cannot be empty")
  else if arr.length % w.dims.toNat ≠ 0 then
    .error (.invalidArgument "Queries array length must be a multiple of index dimensions")
  else if k ≤ 0 then .error (.invalidArgument "k must be positive")
  else
    let nq := arr.length / w.dims.toNat
    if w.disposed then .error .disposed
    else
      let t := FaissIndexWrapper.GetTotalVectors w
      if t = 0 then .error .emptyIndex
      else
        let ak := if k > cppIntOfSizeT t then cppIntOfSizeT t else k
        if ak < 0 then .error (.backendError "vector resize failed")
        else match FaissIndexWrapper.SearchBatch w (some arr) nq ak with
          | .ok p => .ok (p.1, emitLabels p.2)
          | .error e => .error e

/-- `FaissIndexWrapperJS::RangeSearch` composed with
`RangeSearchWorker::Execute`/`OnOK`: query length must equal `dims_`, the
radius must be non-negative; the worker re-checks disposed and the empty
index, then the completion narrows labels to 32 bits and limits to
`uint32_t`. -/
def RangeSearch (w : FaissIndexWrapper) (q : List ℚ) (radius : ℚ) :
    Except FaissErr (List ℚ × List Int × List Nat) :=
  if w.disposed then .error .disposed
  else if (q.length : Int) ≠ w.dims then
    .error (.invalidArgument "Query vector length must match index dimensions")
  else if radius < 0 then .error (.invalidArgument "Radius must be non-negative")
  else if w.disposed then .error .disposed
  else
    let t := FaissIndexWrapper.GetTotalVectors w
    if t = 0 then .error .emptyIndex
    else match FaissIndexWrapper.RangeSearch w (some q) radius with
      | .ok p => .ok (p.1, emitLabels p.2.1, emitLims p.2.2)
      | .error e => .error e

/-- `FaissIndexWrapperJS::GetStats`: after the disposed check, reports
`ntotal`, `dims`, `isTrained`, and the string "FLAT_L2" as `type`,
unconditionally. -/
def GetStats (w : FaissIndexWrapper) : Except FaissErr Stats :=
  if w.disposed then .error .disposed
  else .ok ⟨FaissIndexWrapper.GetTotalVectors w, FaissIndexWrapper.GetDimensions w,
            FaissIndexWrapper.IsTrained w, "FLAT_L2"⟩

/-- `FaissIndexWrapperJS::Dispose`: disposes the wrapper unless it already is
disposed, and always returns successfully (`undefined`). -/
def Dispose (w : FaissIndexWrapper) : Except FaissErr FaissIndexWrapper :=
  .ok (if w.disposed then w else FaissIndexWrapper.Dispose w)

/-- `FaissIndexWrapperJS::Save` composed with `SaveWorker::Execute`. -/
def Save (w : FaissIndexWrapper) (filename : String) : Except FaissErr SerializedBuffer :=
  if w.disposed then .error .disposed
  else FaissIndexWrapper.Save w filename

/-- `FaissIndexWrapperJS::ToBuffer` composed with `ToBufferWorker::Execute`. -/
def ToBuffer (w : FaissIndexWrapper) : Except FaissErr SerializedBuffer :=
  if w.disposed then .error .disposed
  else FaissIndexWrapper.ToBuffer w

/-- `FaissIndexWrapperJS::MergeFrom` composed with
`MergeFromWorker::Execute`: the target is validated by `ValidateNotDisposed`,
the source's disposed state is checked, the worker re-checks both, and the C++
wrapper performs the merge. -/
def MergeFrom (w other : FaissIndexWrapper) :
    Except FaissErr (FaissIndexWrapper × FaissIndexWrapper) :=
  if w.disposed then .error .disposed
  else if other.disposed then .error .disposed
  else FaissIndexWrapper.MergeFrom w other

/-- `FaissIndexWrapperJS::SetNprobe`: disposed check, positivity check, then
the C++ wrapper's capability-optional tuning call. -/
def SetNprobe (w : FaissIndexWrapper) (np : Int) : Except FaissErr FaissIndexWrapper :=
  if w.disposed then .error .disposed
  else if np ≤ 0 then .error (.invalidArgument "nprobe must be positive")
  else FaissIndexWrapper.SetNprobe w np

/-- `FaissIndexWrapperJS::Reset`: disposed check, then the synchronous
wrapper reset. -/
def Reset (w : FaissIndexWrapper) : Except FaissErr FaissIndexWrapper :=
  if w.disposed then .error .disposed
  else FaissIndexWrapper.Reset w

/-- `FaissIndexWrapperJS::FromBuffer` (static): decodes the buffer and wraps
the loaded index in a fresh live JS object whose `dims_` mirrors the loaded
index's dimension. -/
def FromBuffer (buf : SerializedBuffer) : Except FaissErr FaissIndexWrapper :=
  FaissIndexWrapper.FromBuffer buf

/-- The constructor's `type` mapping: `FLAT_L2`/`FLAT_IP` select the "Flat"
descriptor with L2 or inner-product metric, `IVF_FLAT` builds
"IVF{nlist},Flat" with default `nlist = 100`, `HNSW` builds "HNSW{M}" with
default `M = 16`; any other string is rejected. -/
def typeToDescMetric (ty : Option String) (nlist M : Option Int) :
    Except FaissErr (String × Int) :=
  match ty with
  | none => .ok ("Flat", 1)
  | some t =>
    if t = "FLAT_L2" then .ok ("Flat", 1)
    else if t = "FLAT_IP" then .ok ("Flat", 0)
    else if t = "IVF_FLAT" then .ok ("IVF" ++ toString (nlist.getD 100) ++ ",Flat", 1)
    else if t = "HNSW" then .ok ("HNSW" ++ toString (M.getD 16), 1)
    else .error (.invalidArgument ("Unsupported index type: " ++ t))

/-- Modelled from the spec: `faiss::index_factory` builds a fresh empty index
for a descriptor and metric; flat and graph variants start trained, IVF
variants start untrained, and the IVF probe width defaults to 1. -/
def indexFactory (dims : Int) (desc : String) (metric : Int) : Backend :=
  ⟨dims, metric, desc, !(isIVFDesc desc), 1, []⟩

/-- The `FaissIndexWrapperJS` constructor: positive dimension required, the
`type` mapping above, backend construction through the factory, and the
optional `nprobe` configuration. -/
def construct (dims : Int) (ty : Option String) (nlist M nprobe : Option Int) :
    Except FaissErr FaissIndexWrapper :=
  if dims ≤ 0 then .error (.invalidArgument "Dimensions must be positive")
  else match typeToDescMetric ty nlist M with
    | .error e => .error e
    | .ok dm =>
      let w : FaissIndexWrapper := ⟨dims, false, some (indexFactory dims dm.1 dm.2)⟩
      match nprobe with
      | some np =>
        match FaissIndexWrapper.SetNprobe w np with
        | .ok w2 => .ok w2
        | .error e => .error e
      | none => .ok w

end FaissIndexWrapperJS

/-!
A two-thread interleaving model for `MergeFrom`'s lock discipline: thread 0
merges handle 1 into handle 0 (acquisition sequence `mergeFromLockOrder 0 1`),
thread 1 merges handle 0 into handle 1 (sequence `mergeFromLockOrder 1 0`).
Each thread's state is how many locks of its sequence it holds; a thread can
advance when its next lock is held by nobody.
-/

/-- Progress of the two opposite-direction merge threads. -/
structure MergeRace where
  t0 : Nat
  t1 : Nat
deriving DecidableEq, Repr

/-- Acquisition sequence of the merge running on thread 0 (target 0, source 1). -/
def raceOrder0 : List Nat := mergeFromLockOrder 0 1

/-- Acquisition sequence of the merge running on thread 1 (target 1, source 0). -/
def raceOrder1 : List Nat := mergeFromLockOrder 1 0

/-- Whether lock `l` is currently held by either thread. -/
def lockHeld (s : MergeRace) (l : Nat) : Bool :=
  (raceOrder0.take s.t0).contains l || (raceOrder1.take s.t1).contains l

/-- Thread 0 can advance: it still needs a lock and that lock is free. -/
def canStep0 (s : MergeRace) : Bool :=
  decide (s.t0 < raceOrder0.length) && !(lockHeld s (raceOrder0.getD s.t0 0))

/-- Thread 1 can advance: it still needs a lock and that lock is free. -/
def canStep1 (s : MergeRace) : Bool :=
  decide (s.t1 < raceOrder1.length) && !(lockHeld s (raceOrder1.getD s.t1 0))

/-- Schedule thread 0 for one acquisition attempt. -/
def stepT0 (s : MergeRace) : MergeRace :=
  if canStep0 s then { s with t0 := s.t0 + 1 } else s

/-- Schedule thread 1 for one acquisition attempt. -/
def stepT1 (s : MergeRace) : MergeRace :=
  if canStep1 s then { s with t1 := s.t1 + 1 } else s

/-- A race state is deadlocked when neither thread can advance yet at least
one of them has not finished acquiring its locks. -/
def deadlocked (s : MergeRace) : Bool :=
  !(canStep0 s) && !(canStep1 s) &&
    (decide (s.t0 < raceOrder0.length) || decide (s.t1 < raceOrder1.length))

/-!  Helper observers used to phrase the claims without binders in witnesses. -/

/-- Whether a result is a success. -/
def exceptOk {ε α : Type _} : Except ε α → Bool
  | .ok _ => true
  | .error _ => false

/-- Whether a result is an `invalidArgument` failure. -/
def isInvalidArg {α : Type _} : Except FaissErr α → Bool
  | .error (.invalidArgument _) => true
  | _ => false

/-- The wrapper state after an operation: the new state on success, the
unchanged old state when the operation failed (a failed validation performs no
mutation). -/
def stateAfter (r : Except FaissErr FaissIndexWrapper) (old : FaissIndexWrapper) :
    FaissIndexWrapper :=
  match r with
  | .ok w => w
  | .error _ => old

/-- Number of labels a search completion delivers (0 on failure). -/
def okLabelCount : Except FaissErr (List ℚ × List Int) → Nat
  | .ok p => p.2.length
  | .error _ => 0

/-- Number of distances a search completion delivers (0 on failure). -/
def okDistCount : Except FaissErr (List ℚ × List Int) → Nat
  | .ok p => p.1.length
  | .error _ => 0

/-- The merge target's vector count after a merge result (0 on failure). -/
def pairTargetNtotal (r : Except FaissErr (FaissIndexWrapper × FaissIndexWrapper)) : Nat :=
  match r with
  | .ok p => p.1.GetTotalVectors
  | .error _ => 0

/-- The merge source's vector count after a merge result (0 on failure). -/
def pairSourceNtotal (r : Except FaissErr (FaissIndexWrapper × FaissIndexWrapper)) : Nat :=
  match r with
  | .ok p => p.2.GetTotalVectors
  | .error _ => 0

/-- The `type` string of a stats result (empty string on failure). -/
def statsType : Except FaissErr Stats → String
  | .ok s => s.type
  | .error _ => ""

/-- The in-memory serialization round trip `fromBuffer(toBuffer(h))`. -/
def roundTrip (w : FaissIndexWrapper) : Except FaissErr FaissIndexWrapper :=
  match FaissIndexWrapper.ToBuffer w with
  | .ok buf => FaissIndexWrapper.FromBuffer buf
  | .error e => .error e

/-- The wrapper produced by the round trip (a disposed dummy on failure). -/
def afterRoundTrip (w : FaissIndexWrapper) : FaissIndexWrapper :=
  stateAfter (roundTrip w) ⟨0, true, none⟩

/-- A 1-dimensional flat backend holding 2^32 + 5 copies of the vector [0]:
an `ntotal` for which `static_cast<int>(ntotal)` wraps around to the small
positive value 5. -/
def bigBackend : Backend := ⟨1, 1, "Flat", true, 1, List.replicate 4294967301 [0]⟩

/-- A live wrapper around `bigBackend`. -/
def bigWrapper : FaissIndexWrapper := ⟨1, false, some bigBackend⟩

/-!  Support lemmas. -/

theorem toInt32_of_fits (x : Int) (h1 : -2147483648 ≤ x) (h2 : x < 2147483648) :
    toInt32 x = x := by
  unfold toInt32; omega

theorem toInt32_emod (x : Int) : toInt32 x % 4294967296 = x % 4294967296 := by
  unfold toInt32; omega

theorem toInt32_lb (x : Int) : -2147483648 ≤ toInt32 x := by
  unfold toInt32; omega

theorem toInt32_lt (x : Int) : toInt32 x < 2147483648 := by
  unfold toInt32; omega

theorem cppIntOfSizeT_of_fits (n : Nat) (h : n < 2147483648) :
    cppIntOfSizeT n = (n : Int) := by
  unfold cppIntOfSizeT toInt32; omega

theorem insertByScore_length (x : ℚ × Int) (l : List (ℚ × Int)) :
    (insertByScore x l).length = l.length + 1 := by
  induction l with
  | nil => rfl
  | cons y ys ih => simp only [insertByScore]; split <;> simp [ih]

theorem sortByScore_length (l : List (ℚ × Int)) :
    (sortByScore l).length = l.length := by
  induction l with
  | nil => rfl
  | cons x xs ih => simp [sortByScore, insertByScore_length, ih]

theorem searchK_label_length (b : Backend) (q : List ℚ) (k : Nat) :
    (b.searchK q k).2.length = min k b.ntotal := by
  simp [Backend.searchK, Backend.ntotal, sortByScore_length, List.length_take,
    List.enum_length]

theorem searchK_dist_length (b : Backend) (q : List ℚ) (k : Nat) :
    (b.searchK q k).1.length = min k b.ntotal := by
  simp [Backend.searchK, Backend.ntotal, sortByScore_length, List.length_take,
    List.enum_length]

theorem getD_map_toInt32 (ls : List Int) (i : Nat) (hi : i < ls.length) :
    (ls.map toInt32).getD i 0 = toInt32 (ls.getD i 0) := by
  induction ls generalizing i with
  | nil => simp at hi
  | cons a tl ih =>
    cases i with
    | zero => simp
    | succ n =>
      simp only [List.map_cons, List.getD_cons_succ]
      exact ih n (by simpa using hi)

/-!  C6. -/

/-- C6: on a live handle, `Train` with `count == 0` always fails with
`invalidArgument` (whether or not the vectors pointer is null, since the null
check also raises `std::invalid_argument`), while `Add` with `count == 0` and
a non-null buffer succeeds as a no-op that returns the state unchanged (in
particular `ntotal` is unchanged). -/
theorem c6_zero_count_train_rejected_add_noop (w : FaissIndexWrapper)
    (v : Option (List ℚ)) (buf : List ℚ) (hdis : w.disposed = false) :
    isInvalidArg (FaissIndexWrapper.Train w v 0).1 = true ∧
    (FaissIndexWrapper.Add w (some buf) 0).1 = .ok w ∧
    (stateAfter (FaissIndexWrapper.Add w (some buf) 0).1 w).GetTotalVectors
      = w.GetTotalVectors := by
  refine ⟨?_, ?_, ?_⟩
  · cases v <;> simp [FaissIndexWrapper.Train, isInvalidArg, hdis]
  · simp [FaissIndexWrapper.Add, hdis]
  · simp [FaissIndexWrapper.Add, hdis, stateAfter]

/-- C6 witness: a live 4-dimensional flat handle holding one vector. -/
theorem c6_witness :
    ((⟨4, false, some ⟨4, 1, "Flat", true, 1, [[1, 0, 0, 0]]⟩⟩ :
        FaissIndexWrapper).disposed = false) ∧
    (isInvalidArg (FaissIndexWrapper.Train
        ⟨4, false, some ⟨4, 1, "Flat", true, 1, [[1, 0, 0, 0]]⟩⟩ (some []) 0).1 = true ∧
      (FaissIndexWrapper.Add ⟨4, false, some ⟨4, 1, "Flat", true, 1, [[1, 0, 0, 0]]⟩⟩
          (some []) 0).1 =
        .ok ⟨4, false, some ⟨4, 1, "Flat", true, 1, [[1, 0, 0, 0]]⟩⟩ ∧
      (stateAfter (FaissIndexWrapper.Add
            ⟨4, false, some ⟨4, 1, "Flat", true, 1, [[1, 0, 0, 0]]⟩⟩ (some []) 0).1
          ⟨4, false, some ⟨4, 1, "Flat", true, 1, [[1, 0, 0, 0]]⟩⟩).GetTotalVectors =
        (⟨4, false, some ⟨4, 1, "Flat", true, 1, [[1, 0, 0, 0]]⟩⟩ :
          FaissIndexWrapper).GetTotalVectors) :=
  ⟨rfl, c6_zero_count_train_rejected_add_noop _ (some []) [] rfl⟩

/-!  C2. -/

/-- C2: once a handle is disposed, every operation of the binding surface
(add, train, search, searchBatch, rangeSearch, save, toBuffer, mergeFrom,
reset, setNprobe, getStats) fails with the `disposed` error, while `dispose`
itself succeeds as a no-op, and does so again on the resulting (unchanged)
state. -/
theorem c2_disposal_finality (w s : FaissIndexWrapper) (arr q : List ℚ)
    (k np : Int) (r : ℚ) (fn : String) (h : w.disposed = true) :
    (FaissIndexWrapperJS.Add w arr).1 = .error .disposed ∧
    (FaissIndexWrapperJS.Train w arr).1 = .error .disposed ∧
    (FaissIndexWrapperJS.Search w q k).1 = .error .disposed ∧
    FaissIndexWrapperJS.SearchBatch w arr k = .error .disposed ∧
    FaissIndexWrapperJS.RangeSearch w q r = .error .disposed ∧
    FaissIndexWrapperJS.Save w fn = .error .disposed ∧
    FaissIndexWrapperJS.ToBuffer w = .error .disposed ∧
    FaissIndexWrapperJS.MergeFrom w s = .error .disposed ∧
    FaissIndexWrapperJS.Reset w = .error .disposed ∧
    FaissIndexWrapperJS.SetNprobe w np = .error .disposed ∧
    FaissIndexWrapperJS.GetStats w = .error .disposed ∧
    FaissIndexWrapperJS.Dispose w = .ok w ∧
    FaissIndexWrapperJS.Dispose (stateAfter (FaissIndexWrapperJS.Dispose w) w) = .ok w := by
  refine ⟨?_, ?_, ?_, ?_, ?_, ?_, ?_, ?_, ?_, ?_, ?_, ?_, ?_⟩ <;>
    simp [FaissIndexWrapperJS.Add, FaissIndexWrapperJS.Train, FaissIndexWrapperJS.Search,
      FaissIndexWrapperJS.SearchBatch, FaissIndexWrapperJS.RangeSearch,
      FaissIndexWrapperJS.Save, FaissIndexWrapperJS.ToBuffer, FaissIndexWrapperJS.MergeFrom,
      FaissIndexWrapperJS.Reset, FaissIndexWrapperJS.SetNprobe, FaissIndexWrapperJS.GetStats,
      FaissIndexWrapperJS.Dispose, stateAfter, h]

/-- C2 witness: a disposed 4-dimensional handle, concrete arguments for every
operation, and a live second handle for the merge. -/
theorem c2_witness :
    ((⟨4, true, none⟩ : FaissIndexWrapper).disposed = true) ∧
    ((FaissIndexWrapperJS.Add ⟨4, true, none⟩ [1, 0, 0, 0]).1 = .error .disposed ∧
     (FaissIndexWrapperJS.Train ⟨4, true, none⟩ [1, 0, 0, 0]).1 = .error .disposed ∧
     (FaissIndexWrapperJS.Search ⟨4, true, none⟩ [1, 0, 0, 0] 1).1 = .error .disposed ∧
     FaissIndexWrapperJS.SearchBatch ⟨4, true, none⟩ [1, 0, 0, 0] 1 = .error .disposed ∧
     FaissIndexWrapperJS.RangeSearch ⟨4, true, none⟩ [1, 0, 0, 0] 1 = .error .disposed ∧
     FaissIndexWrapperJS.Save ⟨4, true, none⟩ "index.faiss" = .error .disposed ∧
     FaissIndexWrapperJS.ToBuffer ⟨4, true, none⟩ = .error .disposed ∧
     FaissIndexWrapperJS.MergeFrom ⟨4, true, none⟩
       ⟨4, false, some ⟨4, 1, "Flat", true, 1, []⟩⟩ = .error .disposed ∧
     FaissIndexWrapperJS.Reset ⟨4, true, none⟩ = .error .disposed ∧
     FaissIndexWrapperJS.SetNprobe ⟨4, true, none⟩ 8 = .error .disposed ∧
     FaissIndexWrapperJS.GetStats ⟨4, true, none⟩ = .error .disposed ∧
     FaissIndexWrapperJS.Dispose ⟨4, true, none⟩ = .ok ⟨4, true, none⟩ ∧
     FaissIndexWrapperJS.Dispose
       (stateAfter (FaissIndexWrapperJS.Dispose ⟨4, true, none⟩) ⟨4, true, none⟩) =
       .ok ⟨4, true, none⟩) :=
  ⟨rfl, c2_disposal_finality ⟨4, true, none⟩ ⟨4, false, some ⟨4, 1, "Flat", true, 1, []⟩⟩
    [1, 0, 0, 0] [1, 0, 0, 0] 1 8 1 "index.faiss" rfl⟩

/-!  C8. -/

/-- C8 counterexample: `MergeFrom` does not acquire the identity-smaller
handle's lock first — merging handle 0 into handle 1 acquires lock 1 before
lock 0 — and the two opposite-direction acquisition sequences admit a
reachable deadlock: after thread 0 takes lock 0 and thread 1 takes lock 1,
neither thread can advance. -/
theorem c8_counterexample :
    mergeFromLockOrder 1 0 ≠ [min 1 0, max 1 0] ∧
    deadlocked (stepT1 (stepT0 ⟨0, 0⟩)) = true := by
  decide

/-- C8 (amended): `MergeFrom` always locks the target handle first and the
source handle second, regardless of the handles' identity order; this
self-then-other rule is not a globally consistent total order, and two merges
running concurrently in opposite directions on the same pair of handles can
reach a deadlocked state (each holding its first lock and waiting on the
other's), exactly as the source's own comment warns. -/
theorem c8_lock_order_target_first (t s : Nat) :
    mergeFromLockOrder t s = [t, s] ∧
    deadlocked (stepT1 (stepT0 ⟨0, 0⟩)) = true :=
  ⟨rfl, by decide⟩

/-!  C9. -/

/-- C9: the labels delivered by the search, searchBatch and rangeSearch
completions (`emitLabels`, applied in `FaissIndexWrapperJS.Search`,
`FaissIndexWrapperJS.SearchBatch` and `FaissIndexWrapperJS.RangeSearch`) are
the backend's 64-bit labels narrowed to 32 bits: position by position the
caller sees `toInt32` of the true label, a value congruent to it modulo 2^32
and lying in [-2^31, 2^31), which therefore differs from every true label
that does not fit in 32 bits, and equals every label that does. -/
theorem c9_label_truncation (ls : List Int) (i : Nat) (hi : i < ls.length) :
    (emitLabels ls).length = ls.length ∧
    (emitLabels ls).getD i 0 = toInt32 (ls.getD i 0) ∧
    toInt32 (ls.getD i 0) % 4294967296 = ls.getD i 0 % 4294967296 ∧
    -2147483648 ≤ toInt32 (ls.getD i 0) ∧
    toInt32 (ls.getD i 0) < 2147483648 ∧
    (2147483648 ≤ ls.getD i 0 ∨ ls.getD i 0 < -2147483648 →
      toInt32 (ls.getD i 0) ≠ ls.getD i 0) ∧
    (-2147483648 ≤ ls.getD i 0 → ls.getD i 0 < 2147483648 →
      toInt32 (ls.getD i 0) = ls.getD i 0) := by
  refine ⟨by simp [emitLabels], getD_map_toInt32 ls i hi, toInt32_emod _,
    toInt32_lb _, toInt32_lt _, ?_, toInt32_of_fits _⟩
  intro hbig
  have h1 := toInt32_lb (ls.getD i 0)
  have h2 := toInt32_lt (ls.getD i 0)
  omega

/-- C9 witness: the label 2^32 + 5 is delivered as 5 and the label 2^31 as
-2^31. -/
theorem c9_witness :
    (0 < ([4294967301, 2147483648, 7] : List Int).length) ∧
    ((emitLabels [4294967301, 2147483648, 7]).length =
        ([4294967301, 2147483648, 7] : List Int).length ∧
      (emitLabels [4294967301, 2147483648, 7]).getD 0 0 =
        toInt32 (([4294967301, 2147483648, 7] : List Int).getD 0 0) ∧
      toInt32 (([4294967301, 2147483648, 7] : List Int).getD 0 0) % 4294967296 =
        ([4294967301, 2147483648, 7] : List Int).getD 0 0 % 4294967296 ∧
      -2147483648 ≤ toInt32 (([4294967301, 2147483648, 7] : List Int).getD 0 0) ∧
      toInt32 (([4294967301, 2147483648, 7] : List Int).getD 0 0) < 2147483648 ∧
      (2147483648 ≤ ([4294967301, 2147483648, 7] : List Int).getD 0 0 ∨
          ([4294967301, 2147483648, 7] : List Int).getD 0 0 < -2147483648 →
        toInt32 (([4294967301, 2147483648, 7] : List Int).getD 0 0) ≠
          ([4294967301, 2147483648, 7] : List Int).getD 0 0) ∧
      (-2147483648 ≤ ([4294967301, 2147483648, 7] : List Int).getD 0 0 →
        ([4294967301, 2147483648, 7] : List Int).getD 0 0 < 2147483648 →
        toInt32 (([4294967301, 2147483648, 7] : List Int).getD 0 0) =
          ([4294967301, 2147483648, 7] : List Int).getD 0 0)) :=
  ⟨by decide, c9_label_truncation [4294967301, 2147483648, 7] 0 (by decide)⟩

/-!  C10. -/

/-- C10: on every live handle, whatever backend variant it carries (whichever
descriptor and metric it was constructed with, or reconstructed from via
load/fromBuffer), `GetStats` reports the string "FLAT_L2" as the handle's
type. -/
theorem c10_stats_type_hardcoded (w : FaissIndexWrapper) (hdis : w.disposed = false) :
    statsType (FaissIndexWrapperJS.GetStats w) = "FLAT_L2" := by
  simp [FaissIndexWrapperJS.GetStats, statsType, hdis]

/-- C10 witness: a handle constructed with the HNSW variant (descriptor
"HNSW16") still reports type "FLAT_L2". -/
theorem c10_witness :
    FaissIndexWrapperJS.construct 8 (some "HNSW") none none none =
      .ok ⟨8, false, some ⟨8, 1, "HNSW16", true, 1, []⟩⟩ ∧
    ((⟨8, false, some ⟨8, 1, "HNSW16", true, 1, []⟩⟩ : FaissIndexWrapper).disposed
      = false) ∧
    statsType (FaissIndexWrapperJS.GetStats
      ⟨8, false, some ⟨8, 1, "HNSW16", true, 1, []⟩⟩) = "FLAT_L2" :=
  ⟨by rfl, rfl,
    c10_stats_type_hardcoded ⟨8, false, some ⟨8, 1, "HNSW16", true, 1, []⟩⟩ rfl⟩

/-!  C1. -/

/-- C1: for two live handles of matching dimension, `mergeFrom(a, b)`
succeeds, the target afterwards holds the sum of both prior vector counts,
the source still holds its prior count (it is returned unmodified, live and
usable), and the binding-level `mergeFrom` agrees with the C++ wrapper. -/
theorem c1_merge_additivity (a b : FaissIndexWrapper) (ba bb : Backend)
    (ha : a.index = some ba) (hb : b.index = some bb)
    (hda : a.disposed = false) (hdb : b.disposed = false)
    (hdim : b.dims = a.dims) :
    exceptOk (FaissIndexWrapper.MergeFrom a b) = true ∧
    pairTargetNtotal (FaissIndexWrapper.MergeFrom a b) =
      a.GetTotalVectors + b.GetTotalVectors ∧
    pairSourceNtotal (FaissIndexWrapper.MergeFrom a b) = b.GetTotalVectors ∧
    b.GetTotalVectors = bb.ntotal ∧
    FaissIndexWrapperJS.MergeFrom a b = FaissIndexWrapper.MergeFrom a b := by
  refine ⟨?_, ?_, ?_, ?_, ?_⟩ <;>
    simp [FaissIndexWrapper.MergeFrom, FaissIndexWrapperJS.MergeFrom, exceptOk,
      pairTargetNtotal, pairSourceNtotal, FaissIndexWrapper.GetTotalVectors,
      Backend.mergeFrom, Backend.ntotal, ha, hb, hda, hdb, hdim]

/-- C1 witness: merging a one-vector handle into a two-vector handle of the
same dimension yields 3 vectors in the target and leaves 1 in the source. -/
theorem c1_witness :
    ((⟨2, false, some ⟨2, 1, "Flat", true, 1, [[1, 0], [0, 1]]⟩⟩ :
        FaissIndexWrapper).index = some ⟨2, 1, "Flat", true, 1, [[1, 0], [0, 1]]⟩ ∧
      (⟨2, false, some ⟨2, 1, "Flat", true, 1, [[3, 4]]⟩⟩ :
        FaissIndexWrapper).index = some ⟨2, 1, "Flat", true, 1, [[3, 4]]⟩ ∧
      (⟨2, false, some ⟨2, 1, "Flat", true, 1, [[1, 0], [0, 1]]⟩⟩ :
        FaissIndexWrapper).disposed = false ∧
      (⟨2, false, some ⟨2, 1, "Flat", true, 1, [[3, 4]]⟩⟩ :
        FaissIndexWrapper).disposed = false ∧
      (⟨2, false, some ⟨2, 1, "Flat", true, 1, [[3, 4]]⟩⟩ :
        FaissIndexWrapper).dims =
        (⟨2, false, some ⟨2, 1, "Flat", true, 1, [[1, 0], [0, 1]]⟩⟩ :
          FaissIndexWrapper).dims) ∧
    (exceptOk (FaissIndexWrapper.MergeFrom
        ⟨2, false, some ⟨2, 1, "Flat", true, 1, [[1, 0], [0, 1]]⟩⟩
        ⟨2, false, some ⟨2, 1, "Flat", true, 1, [[3, 4]]⟩⟩) = true ∧
      pairTargetNtotal (FaissIndexWrapper.MergeFrom
          ⟨2, false, some ⟨2, 1, "Flat", true, 1, [[1, 0], [0, 1]]⟩⟩
          ⟨2, false, some ⟨2, 1, "Flat", true, 1, [[3, 4]]⟩⟩) =
        (⟨2, false, some ⟨2, 1, "Flat", true, 1, [[1, 0], [0, 1]]⟩⟩ :
          FaissIndexWrapper).GetTotalVectors +
        (⟨2, false, some ⟨2, 1, "Flat", true, 1, [[3, 4]]⟩⟩ :
          FaissIndexWrapper).GetTotalVectors ∧
      pairSourceNtotal (FaissIndexWrapper.MergeFrom
          ⟨2, false, some ⟨2, 1, "Flat", true, 1, [[1, 0], [0, 1]]⟩⟩
          ⟨2, false, some ⟨2, 1, "Flat", true, 1, [[3, 4]]⟩⟩) =
        (⟨2, false, some ⟨2, 1, "Flat", true, 1, [[3, 4]]⟩⟩ :
          FaissIndexWrapper).GetTotalVectors ∧
      (⟨2, false, some ⟨2, 1, "Flat", true, 1, [[3, 4]]⟩⟩ :
          FaissIndexWrapper).GetTotalVectors =
        Backend.ntotal ⟨2, 1, "Flat", true, 1, [[3, 4]]⟩ ∧
      FaissIndexWrapperJS.MergeFrom
          ⟨2, false, some ⟨2, 1, "Flat", true, 1, [[1, 0], [0, 1]]⟩⟩
          ⟨2, false, some ⟨2, 1, "Flat", true, 1, [[3, 4]]⟩⟩ =
        FaissIndexWrapper.MergeFrom
          ⟨2, false, some ⟨2, 1, "Flat", true, 1, [[1, 0], [0, 1]]⟩⟩
          ⟨2, false, some ⟨2, 1, "Flat", true, 1, [[3, 4]]⟩⟩) :=
  ⟨⟨rfl, rfl, rfl, rfl, rfl⟩,
    c1_merge_additivity _ _ _ _ rfl rfl rfl rfl rfl⟩

/-!  C4. -/

/-- C4: for every live, well-formed handle, `fromBuffer(toBuffer(h))`
succeeds and yields a handle with the same vector count, dimension and
trained state; in fact the reconstructed wrapper state is equal to the
original, so every query (search, searchBatch, rangeSearch, getStats, a
further toBuffer) returns on it exactly what it returns on the original. -/
theorem c4_serialization_roundtrip (w : FaissIndexWrapper) (b : Backend)
    (hidx : w.index = some b) (hdis : w.disposed = false)
    (hdim : w.dims = b.d) :
    exceptOk (roundTrip w) = true ∧
    (afterRoundTrip w).GetTotalVectors = w.GetTotalVectors ∧
    (afterRoundTrip w).GetDimensions = w.GetDimensions ∧
    (afterRoundTrip w).IsTrained = w.IsTrained ∧
    afterRoundTrip w = w := by
  obtain ⟨dims, disposed, idx⟩ := w
  simp only at hidx hdis hdim
  subst hidx hdis hdim
  refine ⟨rfl, rfl, rfl, rfl, rfl⟩

/-- C4 witness: a live 2-dimensional flat handle with two stored vectors
round-trips to an equal state. -/
theorem c4_witness :
    ((⟨2, false, some ⟨2, 1, "Flat", true, 1, [[1, 0], [0, 1]]⟩⟩ :
        FaissIndexWrapper).index = some ⟨2, 1, "Flat", true, 1, [[1, 0], [0, 1]]⟩ ∧
      (⟨2, false, some ⟨2, 1, "Flat", true, 1, [[1, 0], [0, 1]]⟩⟩ :
        FaissIndexWrapper).disposed = false ∧
      (⟨2, false, some ⟨2, 1, "Flat", true, 1, [[1, 0], [0, 1]]⟩⟩ :
        FaissIndexWrapper).dims = (⟨2, 1, "Flat", true, 1, [[1, 0], [0, 1]]⟩ : Backend).d) ∧
    (exceptOk (roundTrip ⟨2, false, some ⟨2, 1, "Flat", true, 1, [[1, 0], [0, 1]]⟩⟩) = true ∧
      (afterRoundTrip ⟨2, false, some ⟨2, 1, "Flat", true, 1, [[1, 0], [0, 1]]⟩⟩).GetTotalVectors =
        (⟨2, false, some ⟨2, 1, "Flat", true, 1, [[1, 0], [0, 1]]⟩⟩ :
          FaissIndexWrapper).GetTotalVectors ∧
      (afterRoundTrip ⟨2, false, some ⟨2, 1, "Flat", true, 1, [[1, 0], [0, 1]]⟩⟩).GetDimensions =
        (⟨2, false, some ⟨2, 1, "Flat", true, 1, [[1, 0], [0, 1]]⟩⟩ :
          FaissIndexWrapper).GetDimensions ∧
      (afterRoundTrip ⟨2, false, some ⟨2, 1, "Flat", true, 1, [[1, 0], [0, 1]]⟩⟩).IsTrained =
        (⟨2, false, some ⟨2, 1, "Flat", true, 1, [[1, 0], [0, 1]]⟩⟩ :
          FaissIndexWrapper).IsTrained ∧
      afterRoundTrip ⟨2, false, some ⟨2, 1, "Flat", true, 1, [[1, 0], [0, 1]]⟩⟩ =
        ⟨2, false, some ⟨2, 1, "Flat", true, 1, [[1, 0], [0, 1]]⟩⟩) :=
  ⟨⟨rfl, rfl, rfl⟩, c4_serialization_roundtrip _ _ rfl rfl rfl⟩

/-!  C5. -/

/-- C5 counterexample: on a live 4-dimensional handle, `add` with a 3-element
buffer does fail with `invalidArgument`, but a lock IS taken before the
failure: `ValidateNotDisposed` calls `IsDisposed`, whose `lock_guard`
acquires (and releases) the handle's mutex before the length validation runs,
so the claim's "no lock taken" is false. -/
theorem c5_counterexample :
    isInvalidArg (FaissIndexWrapperJS.Add
      ⟨4, false, some ⟨4, 1, "Flat", true, 1, [[1, 0, 0, 0]]⟩⟩ [1, 2, 3]).1 = true ∧
    Ev.lockAcq ∈ (FaissIndexWrapperJS.Add
      ⟨4, false, some ⟨4, 1, "Flat", true, 1, [[1, 0, 0, 0]]⟩⟩ [1, 2, 3]).2 := by
  decide

/-- C5 (amended): on a live handle of dimension `d`, `add` and `train` with a
buffer whose length is not a multiple of `d`, and `search` with a query whose
length differs from `d`, always fail with `invalidArgument` before the
backend is touched (no `backendOp` event occurs) and with no side effects
(`ntotal` unchanged) — however the disposed-state precheck does briefly
acquire and release the handle's lock before the validation error is
raised. -/
theorem c5_dimension_gate (w : FaissIndexWrapper) (arr q : List ℚ) (k : Int)
    (hdis : w.disposed = false)
    (harr : arr.length % w.dims.toNat ≠ 0)
    (hq : (q.length : Int) ≠ w.dims) :
    isInvalidArg (FaissIndexWrapperJS.Add w arr).1 = true ∧
    Ev.backendOp ∉ (FaissIndexWrapperJS.Add w arr).2 ∧
    (stateAfter (FaissIndexWrapperJS.Add w arr).1 w).GetTotalVectors =
      w.GetTotalVectors ∧
    isInvalidArg (FaissIndexWrapperJS.Train w arr).1 = true ∧
    Ev.backendOp ∉ (FaissIndexWrapperJS.Train w arr).2 ∧
    (stateAfter (FaissIndexWrapperJS.Train w arr).1 w).GetTotalVectors =
      w.GetTotalVectors ∧
    isInvalidArg (FaissIndexWrapperJS.Search w q k).1 = true ∧
    Ev.backendOp ∉ (FaissIndexWrapperJS.Search w q k).2 := by
  refine ⟨?_, ?_, ?_, ?_, ?_, ?_, ?_, ?_⟩ <;>
    simp [FaissIndexWrapperJS.Add, FaissIndexWrapperJS.Train, FaissIndexWrapperJS.Search,
      isInvalidArg, stateAfter, hdis, harr, hq]

/-- C5 witness: on the live 4-dimensional handle, a 3-element add/train buffer
and a 2-element query are rejected without touching the backend. -/
theorem c5_witness :
    ((⟨4, false, some ⟨4, 1, "Flat", true, 1, [[1, 0, 0, 0]]⟩⟩ :
        FaissIndexWrapper).disposed = false ∧
      ([1, 2, 3] : List ℚ).length %
        (⟨4, false, some ⟨4, 1, "Flat", true, 1, [[1, 0, 0, 0]]⟩⟩ :
          FaissIndexWrapper).dims.toNat ≠ 0 ∧
      (([1, 2] : List ℚ).length : Int) ≠
        (⟨4, false, some ⟨4, 1, "Flat", true, 1, [[1, 0, 0, 0]]⟩⟩ :
          FaissIndexWrapper).dims) ∧
    (isInvalidArg (FaissIndexWrapperJS.Add
        ⟨4, false, some ⟨4, 1, "Flat", true, 1, [[1, 0, 0, 0]]⟩⟩ [1, 2, 3]).1 = true ∧
      Ev.backendOp ∉ (FaissIndexWrapperJS.Add
        ⟨4, false, some ⟨4, 1, "Flat", true, 1, [[1, 0, 0, 0]]⟩⟩ [1, 2, 3]).2 ∧
      (stateAfter (FaissIndexWrapperJS.Add
            ⟨4, false, some ⟨4, 1, "Flat", true, 1, [[1, 0, 0, 0]]⟩⟩ [1, 2, 3]).1
          ⟨4, false, some ⟨4, 1, "Flat", true, 1, [[1, 0, 0, 0]]⟩⟩).GetTotalVectors =
        (⟨4, false, some ⟨4, 1, "Flat", true, 1, [[1, 0, 0, 0]]⟩⟩ :
          FaissIndexWrapper).GetTotalVectors ∧
      isInvalidArg (FaissIndexWrapperJS.Train
        ⟨4, false, some ⟨4, 1, "Flat", true, 1, [[1, 0, 0, 0]]⟩⟩ [1, 2, 3]).1 = true ∧
      Ev.backendOp ∉ (FaissIndexWrapperJS.Train
        ⟨4, false, some ⟨4, 1, "Flat", true, 1, [[1, 0, 0, 0]]⟩⟩ [1, 2, 3]).2 ∧
      (stateAfter (FaissIndexWrapperJS.Train
            ⟨4, false, some ⟨4, 1, "Flat", true, 1, [[1, 0, 0, 0]]⟩⟩ [1, 2, 3]).1
          ⟨4, false, some ⟨4, 1, "Flat", true, 1, [[1, 0, 0, 0]]⟩⟩).GetTotalVectors =
        (⟨4, false, some ⟨4, 1, "Flat", true, 1, [[1, 0, 0, 0]]⟩⟩ :
          FaissIndexWrapper).GetTotalVectors ∧
      isInvalidArg (FaissIndexWrapperJS.Search
        ⟨4, false, some ⟨4, 1, "Flat", true, 1, [[1, 0, 0, 0]]⟩⟩ [1, 2] 1).1 = true ∧
      Ev.backendOp ∉ (FaissIndexWrapperJS.Search
        ⟨4, false, some ⟨4, 1, "Flat", true, 1, [[1, 0, 0, 0]]⟩⟩ [1, 2] 1).2) :=
  ⟨⟨rfl, by decide, by decide⟩,
    c5_dimension_gate _ [1, 2, 3] [1, 2] 1 rfl (by decide) (by decide)⟩

/-!  C7. -/

/-- C7: on a live handle with `ntotal == 0`, any well-shaped query with a
positive `k` makes `search` fail with `emptyIndex`, and any such query with a
non-negative radius makes `rangeSearch` fail with `emptyIndex` — at the
binding layer and at the C++ wrapper layer alike.  Both operations are `const`
on the wrapper (they return no new state here), so the failed call leaves the
handle unchanged. -/
theorem c7_empty_index_guard (w : FaissIndexWrapper) (b : Backend)
    (q : List ℚ) (k : Int) (radius : ℚ)
    (hidx : w.index = some b) (hdis : w.disposed = false) (ht : b.ntotal = 0)
    (hq : (q.length : Int) = w.dims) (hk : 0 < k) (hr : 0 ≤ radius) :
    (FaissIndexWrapperJS.Search w q k).1 = .error .emptyIndex ∧
    FaissIndexWrapperJS.RangeSearch w q radius = .error .emptyIndex ∧
    (FaissIndexWrapper.Search w (some q) k).1 = .error .emptyIndex ∧
    FaissIndexWrapper.RangeSearch w (some q) radius = .error .emptyIndex := by
  have hk2 : ¬ k ≤ 0 := by omega
  have hr2 : ¬ radius < 0 := not_lt.mpr hr
  refine ⟨?_, ?_, ?_, ?_⟩ <;>
    simp [FaissIndexWrapperJS.Search, FaissIndexWrapperJS.RangeSearch,
      FaissIndexWrapper.Search, FaissIndexWrapper.RangeSearch,
      FaissIndexWrapper.GetTotalVectors, hidx, hdis, ht, hq, hk2, hr2]

/-- C7 witness: an empty live 2-dimensional handle rejects a well-formed
search with k = 3 and a rangeSearch with radius 1/2 with `emptyIndex`. -/
theorem c7_witness :
    ((⟨2, false, some ⟨2, 1, "Flat", true, 1, []⟩⟩ :
        FaissIndexWrapper).index = some ⟨2, 1, "Flat", true, 1, []⟩ ∧
      (⟨2, false, some ⟨2, 1, "Flat", true, 1, []⟩⟩ :
        FaissIndexWrapper).disposed = false ∧
      Backend.ntotal ⟨2, 1, "Flat", true, 1, []⟩ = 0 ∧
      (([1, 0] : List ℚ).length : Int) =
        (⟨2, false, some ⟨2, 1, "Flat", true, 1, []⟩⟩ : FaissIndexWrapper).dims ∧
      (0 : Int) < 3 ∧ (0 : ℚ) ≤ 1 / 2) ∧
    ((FaissIndexWrapperJS.Search ⟨2, false, some ⟨2, 1, "Flat", true, 1, []⟩⟩
        [1, 0] 3).1 = .error .emptyIndex ∧
      FaissIndexWrapperJS.RangeSearch ⟨2, false, some ⟨2, 1, "Flat", true, 1, []⟩⟩
        [1, 0] (1 / 2) = .error .emptyIndex ∧
      (FaissIndexWrapper.Search ⟨2, false, some ⟨2, 1, "Flat", true, 1, []⟩⟩
        (some [1, 0]) 3).1 = .error .emptyIndex ∧
      FaissIndexWrapper.RangeSearch ⟨2, false, some ⟨2, 1, "Flat", true, 1, []⟩⟩
        (some [1, 0]) (1 / 2) = .error .emptyIndex) :=
  ⟨⟨rfl, rfl, rfl, by decide, by decide, by norm_num⟩,
    c7_empty_index_guard _ _ [1, 0] 3 (1 / 2) rfl rfl rfl (by decide) (by decide)
      (by norm_num)⟩

/-!  C3. -/

theorem jsSearch_success_eval (w : FaissIndexWrapper) (b : Backend) (q : List ℚ)
    (k : Int) (hidx : w.index = some b) (hdis : w.disposed = false)
    (hq : (q.length : Int) = w.dims) (hk : 0 < k)
    (ht : 0 < b.ntotal) (ht31 : b.ntotal < 2147483648) :
    (FaissIndexWrapperJS.Search w q k).1 =
      .ok ((b.searchK q (min k.toNat b.ntotal)).1,
        emitLabels (b.searchK q (min k.toNat b.ntotal)).2) := by
  have hcast : cppIntOfSizeT b.ntotal = (b.ntotal : Int) := cppIntOfSizeT_of_fits _ ht31
  have htv : FaissIndexWrapper.GetTotalVectors w = b.ntotal := by
    simp [FaissIndexWrapper.GetTotalVectors, hdis, hidx]
  have htne : b.ntotal ≠ 0 := by omega
  have hk2 : ¬ k ≤ 0 := by omega
  by_cases hkt : k > (b.ntotal : Int)
  · have hmin : min k.toNat b.ntotal = b.ntotal := by omega
    have hnn : ¬ ((b.ntotal : Int) < 0) := by omega
    have hnself : ¬ ((b.ntotal : Int) > (b.ntotal : Int)) := by omega
    have hnle : ¬ ((b.ntotal : Int) ≤ 0) := by omega
    simp [FaissIndexWrapperJS.Search, FaissIndexWrapper.Search, htv, hcast, hdis,
      hq, hk2, htne, hkt, hnn, hnself, hnle, hidx, hmin]
  · have hmin : min k.toNat b.ntotal = k.toNat := by omega
    have hnn : ¬ (k < 0) := by omega
    simp [FaissIndexWrapperJS.Search, FaissIndexWrapper.Search, htv, hcast, hdis,
      hq, hk2, htne, hkt, hnn, hidx, hmin]

/-- C3 counterexample: on a live handle with `ntotal = 2^32 + 5` (so `t > 0`
and `k = 10 ≤ t`), a well-shaped `search` succeeds without any error yet
delivers only 5 pairs instead of the requested 10: the clamp `k >
static_cast<int>(ntotal)` sees the wrapped value 5, so the claim's "for k <= t
it returns exactly k pairs" is false at this input. -/
theorem jsSearch_wrapped_clamp_eval (w : FaissIndexWrapper) (b : Backend)
    (q : List ℚ) (k c : Int) (hidx : w.index = some b) (hdis : w.disposed = false)
    (hq : (q.length : Int) = w.dims) (hk : 0 < k)
    (hcast : cppIntOfSizeT b.ntotal = c) (hc : 0 < c) (hkc : k > c)
    (hne : b.ntotal ≠ 0) :
    (FaissIndexWrapperJS.Search w q k).1 =
      .ok ((b.searchK q c.toNat).1, emitLabels (b.searchK q c.toNat).2) := by
  have htv : FaissIndexWrapper.GetTotalVectors w = b.ntotal := by
    simp [FaissIndexWrapper.GetTotalVectors, hdis, hidx]
  have hk2 : ¬ k ≤ 0 := by omega
  have hc0 : ¬ (c < 0) := by omega
  have hc1 : ¬ (c ≤ 0) := by omega
  have hcc : ¬ (c > c) := by omega
  simp [FaissIndexWrapperJS.Search, FaissIndexWrapper.Search, htv, hcast, hdis, hq,
    hk2, hne, hkc, hc0, hc1, hcc, hidx]

theorem c3_counterexample :
    bigWrapper.disposed = false ∧
    bigBackend.ntotal = 4294967301 ∧
    (10 : Int).toNat ≤ bigBackend.ntotal ∧
    exceptOk (FaissIndexWrapperJS.Search bigWrapper [0] 10).1 = true ∧
    okLabelCount (FaissIndexWrapperJS.Search bigWrapper [0] 10).1 = 5 ∧
    okLabelCount (FaissIndexWrapperJS.Search bigWrapper [0] 10).1 ≠ (10 : Int).toNat := by
  have hn : bigBackend.ntotal = 4294967301 := List.length_replicate 4294967301 [0]
  have hcast : cppIntOfSizeT bigBackend.ntotal = 5 := by
    rw [hn]; decide
  have hne : bigBackend.ntotal ≠ 0 := by omega
  have heval := jsSearch_wrapped_clamp_eval bigWrapper bigBackend [0] 10 5 rfl rfl
    rfl (by omega) hcast (by omega) (by omega) hne
  have hlab : okLabelCount (FaissIndexWrapperJS.Search bigWrapper [0] 10).1 = 5 := by
    rw [heval]
    simp only [okLabelCount, emitLabels, List.length_map, searchK_label_length, hn]
    omega
  refine ⟨rfl, hn, by omega, by rw [heval]; rfl, hlab, by omega⟩

/-- C3 (amended): on a live handle with `0 < ntotal < 2^31` — the regime in
which the source's `static_cast<int>(ntotal)` is value-preserving; beyond it
the cast wraps, failing the call for `ntotal` in [2^31, 2^32) and silently
shrinking the count from 2^32 on — and for every well-shaped query and
positive 32-bit `k`, `search` succeeds and delivers exactly `min k ntotal`
(distance, label) pairs: exactly `ntotal` of them when `k > ntotal`, exactly
`k` of them when `k <= ntotal`, and never more than the requested `k`. -/
theorem c3_k_clamping (w : FaissIndexWrapper) (b : Backend) (q : List ℚ) (k : Int)
    (hidx : w.index = some b) (hdis : w.disposed = false)
    (hq : (q.length : Int) = w.dims) (hk : 0 < k) (hk31 : k < 2147483648)
    (ht : 0 < b.ntotal) (ht31 : b.ntotal < 2147483648) :
    exceptOk (FaissIndexWrapperJS.Search w q k).1 = true ∧
    okLabelCount (FaissIndexWrapperJS.Search w q k).1 = min k.toNat b.ntotal ∧
    okDistCount (FaissIndexWrapperJS.Search w q k).1 = min k.toNat b.ntotal ∧
    (b.ntotal < k.toNat →
      okLabelCount (FaissIndexWrapperJS.Search w q k).1 = b.ntotal) ∧
    (k.toNat ≤ b.ntotal →
      okLabelCount (FaissIndexWrapperJS.Search w q k).1 = k.toNat) ∧
    okLabelCount (FaissIndexWrapperJS.Search w q k).1 ≤ k.toNat := by
  have he := jsSearch_success_eval w b q k hidx hdis hq hk ht ht31
  have hlab : okLabelCount (FaissIndexWrapperJS.Search w q k).1 =
      min k.toNat b.ntotal := by
    rw [he]
    simp [okLabelCount, emitLabels, searchK_label_length]
  refine ⟨by rw [he]; rfl, hlab, ?_, ?_, ?_, ?_⟩
  · rw [he]
    simp [okDistCount, searchK_dist_length]
  · intro h; omega
  · intro h; omega
  · omega

/-- C3 witness: the spec's own scenario — three 4-dimensional vectors,
query `[1, 0, 0, 0]`, `k = 5` — succeeds and delivers exactly 3 pairs. -/
theorem c3_witness :
    ((⟨4, false, some ⟨4, 1, "Flat", true, 1,
        [[1, 0, 0, 0], [0, 1, 0, 0], [0, 0, 1, 0]]⟩⟩ : FaissIndexWrapper).index =
      some ⟨4, 1, "Flat", true, 1, [[1, 0, 0, 0], [0, 1, 0, 0], [0, 0, 1, 0]]⟩ ∧
      (⟨4, false, some ⟨4, 1, "Flat", true, 1,
        [[1, 0, 0, 0], [0, 1, 0, 0], [0, 0, 1, 0]]⟩⟩ : FaissIndexWrapper).disposed
        = false ∧
      (([1, 0, 0, 0] : List ℚ).length : Int) =
        (⟨4, false, some ⟨4, 1, "Flat", true, 1,
          [[1, 0, 0, 0], [0, 1, 0, 0], [0, 0, 1, 0]]⟩⟩ : FaissIndexWrapper).dims ∧
      (0 : Int) < 5 ∧ (5 : Int) < 2147483648 ∧
      0 < Backend.ntotal ⟨4, 1, "Flat", true, 1,
        [[1, 0, 0, 0], [0, 1, 0, 0], [0, 0, 1, 0]]⟩ ∧
      Backend.ntotal ⟨4, 1, "Flat", true, 1,
        [[1, 0, 0, 0], [0, 1, 0, 0], [0, 0, 1, 0]]⟩ < 2147483648) ∧
    (exceptOk (FaissIndexWrapperJS.Search
        ⟨4, false, some ⟨4, 1, "Flat", true, 1,
          [[1, 0, 0, 0], [0, 1, 0, 0], [0, 0, 1, 0]]⟩⟩ [1, 0, 0, 0] 5).1 = true ∧
      okLabelCount (FaissIndexWrapperJS.Search
        ⟨4, false, some ⟨4, 1, "Flat", true, 1,
          [[1, 0, 0, 0], [0, 1, 0, 0], [0, 0, 1, 0]]⟩⟩ [1, 0, 0, 0] 5).1 =
        min (5 : Int).toNat (Backend.ntotal ⟨4, 1, "Flat", true, 1,
          [[1, 0, 0, 0], [0, 1, 0, 0], [0, 0, 1, 0]]⟩) ∧
      okDistCount (FaissIndexWrapperJS.Search
        ⟨4, false, some ⟨4, 1, "Flat", true, 1,
          [[1, 0, 0, 0], [0, 1, 0, 0], [0, 0, 1, 0]]⟩⟩ [1, 0, 0, 0] 5).1 =
        min (5 : Int).toNat (Backend.ntotal ⟨4, 1, "Flat", true, 1,
          [[1, 0, 0, 0], [0, 1, 0, 0], [0, 0, 1, 0]]⟩) ∧
      (Backend.ntotal ⟨4, 1, "Flat", true, 1,
          [[1, 0, 0, 0], [0, 1, 0, 0], [0, 0, 1, 0]]⟩ < (5 : Int).toNat →
        okLabelCount (FaissIndexWrapperJS.Search
          ⟨4, false, some ⟨4, 1, "Flat", true, 1,
            [[1, 0, 0, 0], [0, 1, 0, 0], [0, 0, 1, 0]]⟩⟩ [1, 0, 0, 0] 5).1 =
          Backend.ntotal ⟨4, 1, "Flat", true, 1,
            [[1, 0, 0, 0], [0, 1, 0, 0], [0, 0, 1, 0]]⟩) ∧
      ((5 : Int).toNat ≤ Backend.ntotal ⟨4, 1, "Flat", true, 1,
          [[1, 0, 0, 0], [0, 1, 0, 0], [0, 0, 1, 0]]⟩ →
        okLabelCount (FaissIndexWrapperJS.Search
          ⟨4, false, some ⟨4, 1, "Flat", true, 1,
            [[1, 0, 0, 0], [0, 1, 0, 0], [0, 0, 1, 0]]⟩⟩ [1, 0, 0, 0] 5).1 =
          (5 : Int).toNat) ∧
      okLabelCount (FaissIndexWrapperJS.Search
        ⟨4, false, some ⟨4, 1, "Flat", true, 1,
          [[1, 0, 0, 0], [0, 1, 0, 0], [0, 0, 1, 0]]⟩⟩ [1, 0, 0, 0] 5).1 ≤
        (5 : Int).toNat) :=
  ⟨⟨rfl, rfl, by decide, by decide, by decide, by decide, by decide⟩,
    c3_k_clamping _ _ [1, 0, 0, 0] 5 rfl rfl (by decide) (by decide) (by decide)
      (by decide) (by decide)⟩

end FaissNode
